import Mathlib

set_option maxHeartbeats 1000000
set_option maxRecDepth 4000

/-! Shallow embedding of the Onezone container entrypoint script
    (docker/onezone.py): the configuration driver with its polling loop,
    structured error formatting, batch-configuration defaulting, credential
    lookup, and the readiness waiter. Server interactions are modelled by the
    sequence of replies the server would give to successive requests. -/

/-- Username used in Basic auth together with the emergency passphrase. -/
def PASSPHRASE_USERNAME : String := "onepanel"

/-- Name of the environment variable holding the emergency passphrase. -/
def EMERGENCY_PASSPHRASE_VARIABLE : String := "ONEPANEL_EMERGENCY_PASSPHRASE"

/-- Requests library success test: response.ok is true when the status code is below 400. -/
def responseOk (status_code : Nat) : Bool := status_code < 400

/-- Search for a character sequence inside another, scanning left to right. -/
def hasSublist (needle : List Char) : List Char → Bool
  | [] => needle.isEmpty
  | c :: rest => needle.isPrefixOf (c :: rest) || hasSublist needle rest

/-- Substring test, modelling the Python expression of membership of one string in another. -/
def strContains (hay needle : String) : Bool := hasSublist needle.data hay.data

deriving instance DecidableEq for Except

/-- Python str.split on an explicit one-character separator. -/
def splitOnChar (sep : Char) : List Char → List (List Char)
  | [] => [[]]
  | c :: rest =>
    if c = sep then [] :: splitOnChar sep rest
    else
      match splitOnChar sep rest with
      | [] => [[c]]
      | h :: t => (c :: h) :: t

/-- Python str.join of a list of strings with a separator. -/
def joinWith (sep : String) : List String → String
  | [] => ""
  | [x] => x
  | x :: y :: rest => x ++ sep ++ joinWith sep (y :: rest)

/-- format_step from onezone.py: unpacks service and action around the colon and renders
    the progress line; none models the ValueError raised by the unpacking when the split
    does not yield exactly two parts. -/
def format_step (step : String) : Option String :=
  match splitOnChar ':' step.data with
  | [service, action] => some ("* " ++ service.asString ++ ": " ++ action.asString)
  | _ => none

/-- JSON and YAML values as consumed by the script: None, booleans, strings,
    lists and string-keyed dicts in insertion order. -/
inductive PyVal where
  | null
  | bool (b : Bool)
  | str (s : String)
  | list (items : List PyVal)
  | map (entries : List (String × PyVal))

mutual

/-- Python repr of a value, used by str() on non-string values. -/
def PyVal.pyRepr : PyVal → String
  | .null => "None"
  | .bool b => if b then "True" else "False"
  | .str s => "\x27" ++ s ++ "\x27"
  | .list items => "[" ++ pyReprItems items ++ "]"
  | .map entries => "\x7b" ++ pyReprEntries entries ++ "\x7d"

/-- Comma-joined reprs of the items of a list value. -/
def pyReprItems : List PyVal → String
  | [] => ""
  | [x] => x.pyRepr
  | x :: y :: rest => x.pyRepr ++ ", " ++ pyReprItems (y :: rest)

/-- Comma-joined reprs of the entries of a dict value. -/
def pyReprEntries : List (String × PyVal) → String
  | [] => ""
  | [(k, v)] => "\x27" ++ k ++ "\x27: " ++ v.pyRepr
  | (k, v) :: e :: rest => "\x27" ++ k ++ "\x27: " ++ v.pyRepr ++ ", " ++ pyReprEntries (e :: rest)

end

/-- Python str() as used by string formatting. -/
def PyVal.pyStr : PyVal → String
  | .str s => s
  | v => v.pyRepr

/-- Python dict.get(key, default) on a value expected to be a dict;
    AttributeError when the value is not a dict. -/
def PyVal.get (container : PyVal) (key : String) (default : PyVal) : Except String PyVal :=
  match container with
  | .map entries => .ok ((entries.lookup key).getD default)
  | _ => .error "AttributeError: get"

/-- Python subscripting of a container by a string key: KeyError when a dict lacks
    the key, TypeError when the value is not subscriptable by a string. -/
def PyVal.getItem (container : PyVal) (key : String) : Except String PyVal :=
  match container with
  | .map entries =>
    match entries.lookup key with
    | some v => .ok v
    | none => .error ("KeyError: " ++ key)
  | _ => .error "TypeError: not subscriptable"

/-- Membership of a string in a list value, mirroring Python equality between
    a string and arbitrary values. -/
def listContainsStr : List PyVal → String → Bool
  | [], _ => false
  | .str s :: rest, key => s == key || listContainsStr rest key
  | _ :: rest, key => listContainsStr rest key

/-- Python membership of a string key in a container: dict key membership, list
    membership, substring test for strings, TypeError otherwise. -/
def pyContains (container : PyVal) (key : String) : Except String Bool :=
  match container with
  | .map entries => .ok (entries.lookup key).isSome
  | .list items => .ok (listContainsStr items key)
  | .str s => .ok (strContains s key)
  | _ => .error "TypeError: argument is not iterable"

/-- Greedy line filling with the WRAP_KWARGS of onezone.py: width 100 counted with
    the indents, no breaking of long words or on hyphens. -/
def fill_lines : List String → String → String → List String
  | [], cur, _ => [cur]
  | w :: ws, cur, ind =>
    if cur.length + 1 + w.length ≤ 100 then fill_lines ws (cur ++ " " ++ w) ind
    else cur :: fill_lines ws (ind ++ w) ind

/-- textwrap.fill of a text with the given initial and subsequent indents and
    the WRAP_KWARGS of onezone.py. -/
def textwrap_fill (text initialIndent subsequentIndent : String) : String :=
  match ((splitOnChar ' ' text.data).map List.asString).filter (fun w => w != "") with
  | [] => ""
  | w :: ws => joinWith "\n" (fill_lines ws (initialIndent ++ w) subsequentIndent)

/-- The item loop of format_dict from onezone.py: dict values recurse with a larger
    indent, other values render as wrapped key and value lines. -/
def format_entries : List (String × PyVal) → String → String
  | [], _ => ""
  | (key, PyVal.map nested) :: rest, indent =>
    indent ++ key ++ ":\n" ++ format_entries nested (indent ++ "  ") ++ format_entries rest indent
  | (key, value) :: rest, indent =>
    textwrap_fill (key ++ ": " ++ value.pyStr) indent (indent ++ "  ") ++ "\n"
      ++ format_entries rest indent

/-- format_dict from onezone.py; iterating the items raises when the details value
    is not a dict. -/
def format_dict (details : PyVal) (indent : String) : Except String String :=
  match details with
  | .map entries => .ok (format_entries entries indent)
  | _ => .error "AttributeError: items"

/-- Lexicographic code-point comparison of character lists, as Python compares
    strings. -/
def charListLe : List Char → List Char → Bool
  | [], _ => true
  | _ :: _, [] => false
  | c :: cs, d :: ds =>
    if c.toNat = d.toNat then charListLe cs ds
    else decide (c.toNat < d.toNat)

/-- Python string comparison, by code points. -/
def strLe (a b : String) : Bool := charListLe a.data b.data

/-- Insertion of a string into a sorted list of strings. -/
def insertSorted (s : String) : List String → List String
  | [] => [s]
  | t :: rest => if strLe s t then s :: t :: rest else t :: insertSorted s rest

/-- Python sorted on a list of strings, in code-point lexicographic order. -/
def sortStrings : List String → List String
  | [] => []
  | s :: rest => insertSorted s (sortStrings rest)

/-- Requires every element of a list value to be a string, as the comparisons made
    by Python sorted do on the hostname list; TypeError otherwise. -/
def toStrList : List PyVal → Except String (List String)
  | [] => .ok []
  | PyVal.str s :: rest => do
    let r ← toStrList rest
    .ok (s :: r)
  | _ :: _ => .error "TypeError: comparison not supported"

/-- The nodes block of format_error: empty for falsy values, otherwise the sorted
    node names each on an indented line. Python sorted over a string yields its
    characters and over a dict its keys; a true boolean raises. -/
def nodes_render (nodes : PyVal) : Except String String :=
  match nodes with
  | .list items =>
    match items with
    | [] => .ok ""
    | _ => do
      let strs ← toStrList items
      .ok ("  nodes:\n    " ++ joinWith "\n    " (sortStrings strs))
  | .str s =>
    if s = "" then .ok ""
    else .ok ("  nodes:\n    "
      ++ joinWith "\n    " (sortStrings (s.data.map (fun c => String.mk [c]))))
  | .map entries =>
    match entries with
    | [] => .ok ""
    | _ => .ok ("  nodes:\n    " ++ joinWith "\n    " (sortStrings (entries.map (fun e => e.1))))
  | .null => .ok ""
  | .bool b => if b then .error "TypeError: bool is not iterable" else .ok ""

/-- unwrap_error_with_hosts from onezone.py: extracts the original error from the
    errorOnNodes wrapper listing the hosts where the error occurred. The result
    quadruple is the error id, description, details and nodes. -/
def unwrap_error_with_hosts (error_obj : PyVal) : Except String (PyVal × PyVal × PyVal × PyVal) := do
  let error_id ← error_obj.get "id" .null
  let description ← error_obj.get "description" .null
  let details ← error_obj.get "details" (.map [])
  let isWrapper :=
    match error_id with
    | PyVal.str s => s == "errorOnNodes"
    | _ => false
  if isWrapper then do
    let hasInner ← pyContains details "error"
    if hasInner then do
      let inner ← details.getItem "error"
      let eid ← inner.getItem "id"
      let edescr ← inner.getItem "description"
      let nodes ← details.getItem "hostnames"
      let details2 ← inner.get "details" (.map [])
      return (eid, edescr, details2, nodes)
    else return (error_id, description, details, .list [])
  else return (error_id, description, details, .list [])

/-- Parsed JSON body of a configuration-task poll response, with the three fields
    the script consumes; an absent field is none. -/
structure RespBody where
  status : Option String
  steps : Option (List String)
  error : Option PyVal

/-- format_error from onezone.py: generic message when the body has no error field,
    otherwise the unwrapped error rendered as id line, nodes block, wrapped
    description and indented details tree. -/
def format_error (response : RespBody) : Except String String :=
  match response.error with
  | none => .ok "Error: unexpected server response"
  | some error_obj =>
    match unwrap_error_with_hosts error_obj with
    | .error e => .error e
    | .ok (error_id, descr, details, nodes) =>
      match format_dict details "    " with
      | .error e => .error e
      | .ok ds =>
        let details_str := if ds != "" then "  details:\n" ++ ds else ds
        match nodes_render nodes with
        | .error e => .error e
        | .ok nodes_str =>
          match descr with
          | PyVal.str d =>
            .ok ("Error:\n  id: " ++ error_id.pyStr ++ "\n" ++ nodes_str ++ "\n"
              ++ textwrap_fill ("description: " ++ d) "  " "    " ++ "\n" ++ details_str)
          | _ => .error "TypeError: can only concatenate str to str"

/-- HTTP reply to one polling GET: status code, raw body text, and parsed JSON body. -/
structure HttpReply where
  status_code : Nat
  text : String
  body : RespBody

/-- Message of the AuthenticationError raised by do_auth_request on a 401 or 403 reply. -/
def auth_error_message : String :=
  "Authentication error.\nPlease ensure that valid emergency passphrase is present\nin the "
  ++ EMERGENCY_PASSPHRASE_VARIABLE ++ " environment variable"

/-- Message of the RuntimeError raised when a polling GET returns a non-success status. -/
def unexpected_error_message (body : String) : String :=
  "Unexpected configuration error\n" ++ body ++ "For more information please check the logs."

/-- Outcome of the polling loop in configure. -/
inductive PollResult where
  | success
  | authError (msg : String)
  | httpFatal (msg : String)
  | stepFormatError (step : String)
  | reportError (report : Except String String)
  | starved
deriving DecidableEq

/-- One poll run: progress lines logged, final outcome, and number of GETs issued. -/
structure PollRun where
  log : List String
  result : PollResult
  gets : Nat
deriving DecidableEq

/-- The step-diff loop body of configure: walks the freshly reported steps, popping
    the previous head silently when unchanged and logging every other step; the
    second component is the step on which format_step raises, when one exists,
    and the first component holds the lines logged before that point. -/
def process_steps : List String → List String → List String × Option String
  | [], _ => ([], none)
  | step :: rest, p :: ps =>
    if step = p then process_steps rest ps
    else
      match format_step step with
      | some line =>
        let r := process_steps rest (p :: ps)
        (line :: r.1, r.2)
      | none => ([], some step)
  | step :: rest, [] =>
    match format_step step with
    | some line =>
      let r := process_steps rest []
      (line :: r.1, r.2)
    | none => ([], some step)

/-- The while-running polling loop of configure, driven by the list of replies the
    server gives to successive GETs: an authentication error or non-success reply
    aborts, otherwise the reported steps are diffed and logged, and polling
    continues exactly while the reported status is running; starved models a
    server that stops answering while the task still reports running. -/
def poll_loop : List HttpReply → List String → PollRun
  | [], _ => ⟨[], .starved, 0⟩
  | r :: rest, prev_steps =>
    if r.status_code = 401 ∨ r.status_code = 403 then ⟨[], .authError auth_error_message, 1⟩
    else if ! responseOk r.status_code then ⟨[], .httpFatal (unexpected_error_message r.text), 1⟩
    else
      let status := r.body.status.getD "error"
      let processed := process_steps (r.body.steps.getD []) prev_steps
      match processed.2 with
      | some s => ⟨processed.1, .stepFormatError s, 1⟩
      | none =>
        if status = "running" then
          let run := poll_loop rest (r.body.steps.getD [])
          ⟨processed.1 ++ run.log, run.result, run.gets + 1⟩
        else if status = "ok" then ⟨processed.1, .success, 1⟩
        else ⟨processed.1, .reportError (format_error r.body), 1⟩

/-- Reply to the emergency-passphrase PUT. -/
structure SetPassReply where
  status_code : Nat
  text : String

/-- Result of set_emergency_passphrase: AuthenticationError on 401 or 403,
    RuntimeError on any other non-success status. -/
inductive SetPassResult where
  | authError (msg : String)
  | runtimeError (msg : String)
  | done
deriving DecidableEq

/-- set_emergency_passphrase from onezone.py. -/
def set_emergency_passphrase (r : SetPassReply) : SetPassResult :=
  if r.status_code = 401 ∨ r.status_code = 403 then
    .authError ("Could not set Onepanel emergency passphrase due to authentication error: "
      ++ toString r.status_code ++ " " ++ r.text)
  else if ! responseOk r.status_code then
    .runtimeError ("Could not set Onepanel emergency passphrase: "
      ++ toString r.status_code ++ " " ++ r.text)
  else .done

/-- Reply to the configuration POST: status code, body text and Location header. -/
structure PostReply where
  status_code : Nat
  text : String
  location : Option String

/-- Message of the RuntimeError raised when the configuration POST fails. -/
def fatal_submit_message (code : Nat) (body : String) : String :=
  "Failed to start configuration process, the response was:\n  code: " ++ toString code
  ++ "\n  body: " ++ body ++ "\nFor more information please check the logs."

/-- Result of the submission half of configure, through reading the Location header. -/
inductive SubmitResult where
  | alreadyConfigured
  | authError (msg : String)
  | setPassphraseError (msg : String)
  | fatal (msg : String)
  | keyErrorLocation
  | taskHandle (loc : String)
deriving DecidableEq

/-- True exactly on the fatal constructor. -/
def SubmitResult.isFatal : SubmitResult → Bool
  | .fatal _ => true
  | _ => false

/-- The submission half of configure: set the emergency passphrase, where an
    authentication error means an existing deployment, then POST the configuration
    and read the Location header of a successful reply. -/
def configure_submit (setPass : SetPassReply) (post : PostReply) : SubmitResult :=
  match set_emergency_passphrase setPass with
  | .authError _ => .alreadyConfigured
  | .runtimeError m => .setPassphraseError m
  | .done =>
    if post.status_code = 401 ∨ post.status_code = 403 then .authError auth_error_message
    else if post.status_code = 409 then .alreadyConfigured
    else if ! responseOk post.status_code then
      .fatal (fatal_submit_message post.status_code post.text)
    else
      match post.location with
      | none => .keyErrorLocation
      | some loc => .taskHandle loc

/-- Overall outcome of configure. -/
inductive ConfigureOutcome where
  | alreadyConfigured
  | deployed
  | authError (msg : String)
  | setPassphraseError (msg : String)
  | fatal (msg : String)
  | keyErrorLocation
  | stepUnpackError (step : String)
  | reportError (report : Except String String)
  | starved
deriving DecidableEq

/-- configure from onezone.py: the submission half followed by the polling loop
    on the returned task location. -/
def configure (setPass : SetPassReply) (post : PostReply) (replies : List HttpReply) :
    List String × ConfigureOutcome :=
  match configure_submit setPass post with
  | .alreadyConfigured => ([], .alreadyConfigured)
  | .authError m => ([], .authError m)
  | .setPassphraseError m => ([], .setPassphraseError m)
  | .fatal m => ([], .fatal m)
  | .keyErrorLocation => ([], .keyErrorLocation)
  | .taskHandle _ =>
    let run := poll_loop replies []
    (run.log,
      match run.result with
      | .success => .deployed
      | .authError m => .authError m
      | .httpFatal m => .fatal m
      | .stepFormatError s => .stepUnpackError s
      | .reportError rep => .reportError rep
      | .starved => .starved)

/-- Python truthiness for the values the script tests. -/
def pyTruthy : PyVal → Bool
  | .null => false
  | .bool b => b
  | .str s => s != ""
  | .list l => !l.isEmpty
  | .map m => !m.isEmpty

/-- Python dict assignment: replaces the first binding of the key in place or
    appends a new binding at the end. -/
def dict_set (k : String) (v : PyVal) : List (String × PyVal) → List (String × PyVal)
  | [] => [(k, v)]
  | (k2, v2) :: rest => if k2 = k then (k, v) :: rest else (k2, v2) :: dict_set k v rest

/-- get_batch_config from onezone.py, applied to the already-parsed ONEZONE_CONFIG
    value: falsy configs collapse to the empty dict, otherwise the
    interactiveDeployment mark is inserted under onepanel when not present. -/
def get_batch_config (batch_config : PyVal) : Except String PyVal :=
  if ! pyTruthy batch_config then .ok (.map [])
  else
    match batch_config with
    | .map entries =>
      match (entries.lookup "onepanel").getD (.map []) with
      | .map op_entries =>
        if (op_entries.lookup "interactiveDeployment").isSome then .ok (.map entries)
        else
          .ok (.map (dict_set "onepanel"
            (.map (dict_set "interactiveDeployment" (.bool false) op_entries)) entries))
      | .str s =>
        if strContains s "interactiveDeployment" then .ok (.map entries)
        else .error "TypeError: str does not support item assignment"
      | .list items =>
        if listContainsStr items "interactiveDeployment" then .ok (.map entries)
        else .error "TypeError: list indices must be integers"
      | _ => .error "TypeError: argument is not iterable"
    | _ => .error "AttributeError: get"

/-- The onepanel.interactiveDeployment entry of a configuration mapping, when present. -/
def interactive_of (entries : List (String × PyVal)) : Option PyVal :=
  match entries.lookup "onepanel" with
  | some (.map op) => op.lookup "interactiveDeployment"
  | _ => none

/-- get_emergency_passphrase from onezone.py, over the process environment modelled
    as the optional value of the passphrase variable; the error carries the
    MissingVariableError message. -/
def get_emergency_passphrase (env : Option String) : Except String String :=
  match env with
  | none => .error ("Missing " ++ EMERGENCY_PASSPHRASE_VARIABLE ++ " environment variable")
  | some p => .ok p

/-- do_auth_request from onezone.py: fetch the passphrase, perform the request with
    Basic auth, and raise AuthenticationError on a 401 or 403 reply; returns the
    credential pair actually used together with the reply. -/
def do_auth_request (env : Option String) (respond : String × String → HttpReply) :
    Except String ((String × String) × HttpReply) := do
  let passphrase ← get_emergency_passphrase env
  let auth := (PASSPHRASE_USERNAME, passphrase)
  let r := respond auth
  if r.status_code = 401 ∨ r.status_code = 403 then .error auth_error_message
  else .ok (auth, r)

/-- Result of one nagios health request: an exception raised by the request call
    (connection failure, rejected or missing credential), or an HTTP reply whose
    body parses to an XML root with the given attributes, none when malformed. -/
inductive HealthReply where
  | requestException
  | httpReply (status_code : Nat) (parsed : Option (List (String × String)))
deriving DecidableEq

/-- What one nagios_up call does: report up or down, or raise out of the caller. -/
inductive NagiosOutcome where
  | up
  | down
  | raised (msg : String)
deriving DecidableEq

/-- nagios_up from onezone.py: request failures and non-success statuses are down,
    as is a parsed status attribute different from ok; the body of a successful
    reply is parsed outside the try block, so a malformed body or a missing
    status attribute raises. -/
def nagios_up (reply : HealthReply) : NagiosOutcome :=
  match reply with
  | .requestException => .down
  | .httpReply code parsed =>
    if code = 401 ∨ code = 403 then .down
    else if ! responseOk code then .down
    else
      match parsed with
      | none => .raised "ParseError: malformed health document"
      | some attrs =>
        match attrs.lookup "status" with
        | none => .raised "KeyError: status"
        | some v => if v = "ok" then .up else .down

/-- Message of the timeout error in wait_for_workers. -/
def timeout_message : String := "Timeout waiting for the Onepanel service readiness"

/-- Outcome of wait_for_workers. -/
inductive WaitOutcome where
  | healthy
  | timeout (msg : String)
  | raised (msg : String)
  | starved
deriving DecidableEq

/-- One run of the readiness loop: outcome, number of health checks performed,
    and number of one-unit sleeps taken. -/
structure WaitRun where
  outcome : WaitOutcome
  checks : Nat
  sleeps : Nat
deriving DecidableEq

/-- The retry loop of wait_for_workers: a down check sleeps one unit, increments
    the retry counter and times out when the counter reaches 120. -/
def wait_loop : List HealthReply → Nat → WaitRun
  | [], _ => ⟨.starved, 0, 0⟩
  | h :: rest, retries =>
    match nagios_up h with
    | .raised m => ⟨.raised m, 1, 0⟩
    | .up => ⟨.healthy, 1, 0⟩
    | .down =>
      if retries + 1 = 120 then ⟨.timeout timeout_message, 1, 1⟩
      else
        let run := wait_loop rest (retries + 1)
        ⟨run.outcome, run.checks + 1, run.sleeps + 1⟩

/-- wait_for_workers from onezone.py, starting from a zero retry counter. -/
def wait_for_workers (replies : List HealthReply) : WaitRun := wait_loop replies 0

/-! Helper lemmas about step formatting and the step-diff loop. -/

/-- The split of a character list has one more part than there are separators. -/
theorem splitOnChar_length (sep : Char) (l : List Char) :
    (splitOnChar sep l).length = l.count sep + 1 := by
  induction l with
  | nil => simp [splitOnChar]
  | cons c rest ih =>
    by_cases h : c = sep
    · simp [splitOnChar, h, List.count_cons, ih]
    · cases hs : splitOnChar sep rest with
      | nil => rw [hs] at ih; simp at ih
      | cons a t =>
        rw [hs] at ih
        simp only [splitOnChar, if_neg h, hs, List.length_cons] at ih ⊢
        simp [List.count_cons, h, ih]

/-- format_step fails exactly on the steps that do not contain exactly one colon. -/
theorem format_step_none_iff (s : String) :
    format_step s = none ↔ s.data.count ':' ≠ 1 := by
  have hlen := splitOnChar_length ':' s.data
  unfold format_step
  cases hs : splitOnChar ':' s.data with
  | nil => rw [hs] at hlen; simp at hlen
  | cons a t =>
    rw [hs] at hlen
    cases t with
    | nil =>
      simp only [List.length_cons, List.length_nil] at hlen
      exact iff_of_true rfl (by omega)
    | cons b t2 =>
      cases t2 with
      | nil =>
        simp only [List.length_cons, List.length_nil] at hlen
        exact iff_of_false (by simp) (by omega)
      | cons c t3 =>
        simp only [List.length_cons] at hlen
        exact iff_of_true rfl (by omega)

/-- Every step of a list can be formatted. -/
def goodSteps (l : List String) : Prop := ∀ s ∈ l, (format_step s).isSome

/-- The step-diff loop does not raise when every new step can be formatted. -/
theorem process_steps_good (new : List String) :
    ∀ prev, goodSteps new → (process_steps new prev).2 = none := by
  induction new with
  | nil => intro prev _; simp [process_steps]
  | cons step rest ih =>
    intro prev hg
    have hstep : (format_step step).isSome := hg step (by simp)
    have hrest : goodSteps rest := fun s hs => hg s (by simp [hs])
    cases prev with
    | nil =>
      cases hfs : format_step step with
      | none => rw [hfs] at hstep; simp at hstep
      | some line => simp [process_steps, hfs, ih [] hrest]
    | cons p ps =>
      by_cases he : step = p
      · simp [process_steps, he, ih ps hrest]
      · cases hfs : format_step step with
        | none => rw [hfs] at hstep; simp at hstep
        | some line => simp [process_steps, he, hfs, ih (p :: ps) hrest]

/-- The step on which the step-diff loop raises cannot be formatted. -/
theorem process_steps_bad (new : List String) :
    ∀ prev s, (process_steps new prev).2 = some s → format_step s = none := by
  induction new with
  | nil => intro prev s h; simp [process_steps] at h
  | cons step rest ih =>
    intro prev s h
    cases prev with
    | nil =>
      cases hfs : format_step step with
      | none =>
        simp only [process_steps, hfs] at h
        cases h; exact hfs
      | some line =>
        simp only [process_steps, hfs] at h
        exact ih [] s h
    | cons p ps =>
      by_cases he : step = p
      · simp only [process_steps, if_pos he] at h
        exact ih ps s h
      · cases hfs : format_step step with
        | none =>
          simp only [process_steps, if_neg he, hfs] at h
          cases h; exact hfs
        | some line =>
          simp only [process_steps, if_neg he, hfs] at h
          exact ih (p :: ps) s h

/-- When the previous steps are all formattable and the diff loop does not raise,
    every new step is formattable: a malformed step can never hide behind the
    silent popping of an already-reported head. -/
theorem process_steps_none_good (new : List String) :
    ∀ prev, goodSteps prev → (process_steps new prev).2 = none → goodSteps new := by
  induction new with
  | nil => intro prev _ _; intro s hs; simp at hs
  | cons step rest ih =>
    intro prev hprev h
    cases prev with
    | nil =>
      cases hfs : format_step step with
      | none => simp [process_steps, hfs] at h
      | some line =>
        simp only [process_steps, hfs] at h
        have hrest := ih [] (by intro s hs; simp at hs) h
        intro s hs
        rcases List.mem_cons.mp hs with rfl | hs2
        · simp [hfs]
        · exact hrest s hs2
    | cons p ps =>
      by_cases he : step = p
      · simp only [process_steps, if_pos he] at h
        have hps : goodSteps ps := fun s hs => hprev s (by simp [hs])
        have hrest := ih ps hps h
        intro s hs
        rcases List.mem_cons.mp hs with rfl | hs2
        · exact he ▸ hprev p (by simp)
        · exact hrest s hs2
      · cases hfs : format_step step with
        | none => simp [process_steps, if_neg he, hfs] at h
        | some line =>
          simp only [process_steps, if_neg he, hfs] at h
          have hrest := ih (p :: ps) hprev h
          intro s hs
          rcases List.mem_cons.mp hs with rfl | hs2
          · simp [hfs]
          · exact hrest s hs2

/-- Every line produced by the step-diff loop is the rendering of some step. -/
theorem process_steps_log (new : List String) :
    ∀ prev line, line ∈ (process_steps new prev).1 → ∃ s, format_step s = some line := by
  induction new with
  | nil => intro prev line h; simp [process_steps] at h
  | cons step rest ih =>
    intro prev line h
    cases prev with
    | nil =>
      cases hfs : format_step step with
      | none => simp [process_steps, hfs] at h
      | some l2 =>
        simp only [process_steps, hfs, List.mem_cons] at h
        rcases h with rfl | h2
        · exact ⟨step, hfs⟩
        · exact ih [] line h2
    | cons p ps =>
      by_cases he : step = p
      · simp only [process_steps, if_pos he] at h
        exact ih ps line h
      · cases hfs : format_step step with
        | none => simp [process_steps, if_neg he, hfs] at h
        | some l2 =>
          simp only [process_steps, if_neg he, hfs, List.mem_cons] at h
          rcases h with rfl | h2
          · exact ⟨step, hfs⟩
          · exact ih (p :: ps) line h2

/-! Helper lemmas about the polling loop. -/

/-- A reply that keeps the polling loop going: HTTP success, running status,
    and formattable steps. -/
def runningReply (r : HttpReply) : Prop :=
  responseOk r.status_code = true ∧ r.body.status.getD "error" = "running"
    ∧ goodSteps (r.body.steps.getD [])

/-- The previous-steps cursor after a list of replies has been consumed. -/
def finalPrev : List HttpReply → List String → List String
  | [], prev => prev
  | r :: rest, _ => finalPrev rest (r.body.steps.getD [])

/-- The log lines produced while consuming a list of replies. -/
def prefixLog : List HttpReply → List String → List String
  | [], _ => []
  | r :: rest, prev =>
    (process_steps (r.body.steps.getD []) prev).1 ++ prefixLog rest (r.body.steps.getD [])

/-- A run over replies that keep the task running first consumes all of them,
    logging their step diffs, and then continues on the remaining replies with
    the advanced cursor; each consumed reply costs one GET. -/
theorem poll_loop_append (pre : List HttpReply) :
    ∀ (prev : List String) (rest : List HttpReply), (∀ x ∈ pre, runningReply x) →
    poll_loop (pre ++ rest) prev =
      ⟨prefixLog pre prev ++ (poll_loop rest (finalPrev pre prev)).log,
       (poll_loop rest (finalPrev pre prev)).result,
       (poll_loop rest (finalPrev pre prev)).gets + pre.length⟩ := by
  induction pre with
  | nil => intro prev rest _; simp [prefixLog, finalPrev]
  | cons r pre2 ih =>
    intro prev rest hall
    obtain ⟨hok, hrun, hsteps⟩ := hall r (by simp)
    have hlt : r.status_code < 400 := by
      simpa [responseOk, decide_eq_true_eq] using hok
    have hauth : ¬ (r.status_code = 401 ∨ r.status_code = 403) := by omega
    have hproc := process_steps_good (r.body.steps.getD []) prev hsteps
    have htail : ∀ x ∈ pre2, runningReply x := fun x hx => hall x (by simp [hx])
    have hih := ih (r.body.steps.getD []) rest htail
    simp only [List.cons_append, poll_loop, if_neg hauth, hok, Bool.not_true,
      Bool.false_eq_true, if_false, hproc, hrun, if_true, List.append_eq, hih,
      prefixLog, finalPrev, List.append_assoc, List.length_cons, PollRun.mk.injEq]
    exact ⟨trivial, trivial, by omega⟩

/-- A reply that is not a successful running report ends the polling loop with
    exactly that one GET, whatever follows. -/
theorem poll_loop_stop (r : HttpReply) (rest : List HttpReply) (prev : List String)
    (h : ¬ (responseOk r.status_code = true ∧ r.body.status.getD "error" = "running")) :
    (poll_loop (r :: rest) prev).gets = 1 := by
  by_cases hauth : r.status_code = 401 ∨ r.status_code = 403
  · simp [poll_loop, hauth]
  · by_cases hok : responseOk r.status_code = true
    · have hnr : ¬ r.body.status.getD "error" = "running" := fun hr => h ⟨hok, hr⟩
      cases hproc : (process_steps (r.body.steps.getD []) prev).2 with
      | some s => simp [poll_loop, hauth, hok, hproc]
      | none =>
        by_cases hst : r.body.status.getD "error" = "ok"
        · simp [poll_loop, hauth, hok, hproc, hnr, hst]
        · simp [poll_loop, hauth, hok, hproc, hnr, hst]
    · have : responseOk r.status_code = false := by
        cases hb : responseOk r.status_code
        · rfl
        · exact absurd hb hok
      simp [poll_loop, hauth, this]

/-- Every line logged by the polling loop is the rendering of some step. -/
theorem poll_loop_log (replies : List HttpReply) :
    ∀ prev line, line ∈ (poll_loop replies prev).log → ∃ s, format_step s = some line := by
  induction replies with
  | nil => intro prev line h; simp [poll_loop] at h
  | cons r rest ih =>
    intro prev line h
    by_cases hauth : r.status_code = 401 ∨ r.status_code = 403
    · simp [poll_loop, hauth] at h
    · cases hok : responseOk r.status_code with
      | false => simp [poll_loop, hauth, hok] at h
      | true =>
        cases hproc : (process_steps (r.body.steps.getD []) prev).2 with
        | some s =>
          simp only [poll_loop, if_neg hauth, hok, Bool.not_true, Bool.false_eq_true,
            if_false, hproc] at h
          exact process_steps_log _ _ line h
        | none =>
          by_cases hrun : r.body.status.getD "error" = "running"
          · simp only [poll_loop, if_neg hauth, hok, Bool.not_true, Bool.false_eq_true,
              if_false, hproc, hrun, if_true, List.mem_append] at h
            rcases h with h1 | h2
            · exact process_steps_log _ _ line h1
            · exact ih _ line h2
          · by_cases hst : r.body.status.getD "error" = "ok"
            · simp only [poll_loop, if_neg hauth, hok, Bool.not_true, Bool.false_eq_true,
                if_false, hproc, hrun, if_false, hst, if_true] at h
              exact process_steps_log _ _ line h
            · simp only [poll_loop, if_neg hauth, hok, Bool.not_true, Bool.false_eq_true,
                if_false, hproc, hrun, hst, if_false] at h
              exact process_steps_log _ _ line h

/-- The cursor reached after formattable running replies is itself formattable. -/
theorem finalPrev_good (pre : List HttpReply) :
    ∀ prev, goodSteps prev → (∀ x ∈ pre, runningReply x) →
    goodSteps (finalPrev pre prev) := by
  induction pre with
  | nil => intro prev hp _; exact hp
  | cons r pre2 ih =>
    intro prev _ hall
    exact ih _ (hall r (by simp)).2.2 (fun x hx => hall x (by simp [hx]))

/-! Claim theorems about the polling loop. -/

/-- C1: poll on a task whose reported sequence is running with steps [a], then
    running with steps [a, b], then ok, logs the rendering of step a exactly once,
    then of step b exactly once, and returns success (in exactly three GETs). -/
theorem c1_poll_logs_appended_steps (a b la lb : String)
    (ha : format_step a = some la) (hb : format_step b = some lb) :
    poll_loop [⟨200, "", ⟨some "running", some [a], none⟩⟩,
               ⟨200, "", ⟨some "running", some [a, b], none⟩⟩,
               ⟨200, "", ⟨some "ok", none, none⟩⟩] []
      = ⟨[la, lb], .success, 3⟩ := by
  simp [poll_loop, process_steps, ha, hb, responseOk]

/-- Witness for C1 at concrete service and action names. -/
theorem c1_poll_logs_appended_steps_witness :
    poll_loop [⟨200, "", ⟨some "running", some ["cluster_manager:start"], none⟩⟩,
               ⟨200, "", ⟨some "running", some ["cluster_manager:start", "oz_worker:init"], none⟩⟩,
               ⟨200, "", ⟨some "ok", none, none⟩⟩] []
      = ⟨["* cluster_manager: start", "* oz_worker: init"], .success, 3⟩ :=
  c1_poll_logs_appended_steps "cluster_manager:start" "oz_worker:init"
    "* cluster_manager: start" "* oz_worker: init" rfl rfl

/-- C4: when the polling loop terminates on a successful reply whose status is
    neither running nor ok (including unrecognized statuses), it reports the
    formatted error built from that last response body, and a body without an
    error field formats to the generic unexpected-server-response message. -/
theorem c4_poll_error_report (pre : List HttpReply) (r : HttpReply) (rest : List HttpReply)
    (hpre : ∀ x ∈ pre, runningReply x)
    (hok : responseOk r.status_code = true)
    (hnr : ¬ r.body.status.getD "error" = "running")
    (hno : ¬ r.body.status.getD "error" = "ok")
    (hgs : goodSteps (r.body.steps.getD [])) :
    (∃ lg, poll_loop (pre ++ r :: rest) []
        = ⟨lg, .reportError (format_error r.body), pre.length + 1⟩)
    ∧ (r.body.error = none → format_error r.body = .ok "Error: unexpected server response") := by
  constructor
  · have hlt : r.status_code < 400 := by simpa [responseOk, decide_eq_true_eq] using hok
    have hauth : ¬ (r.status_code = 401 ∨ r.status_code = 403) := by omega
    have hproc := process_steps_good (r.body.steps.getD []) (finalPrev pre []) hgs
    have h1 : poll_loop (r :: rest) (finalPrev pre [])
        = ⟨(process_steps (r.body.steps.getD []) (finalPrev pre [])).1,
           .reportError (format_error r.body), 1⟩ := by
      simp only [poll_loop, if_neg hauth, hok, Bool.not_true, Bool.false_eq_true, if_false,
        hproc, if_neg hnr, if_neg hno]
    refine ⟨prefixLog pre [] ++ (process_steps (r.body.steps.getD []) (finalPrev pre [])).1, ?_⟩
    rw [poll_loop_append pre [] (r :: rest) hpre, h1]
    simp [Nat.add_comm]
  · intro he
    simp [format_error, he]

/-- Witness for C4 at a one-reply run with an unrecognized terminal status. -/
theorem c4_poll_error_report_witness :
    (∃ lg, poll_loop ([] ++ (⟨200, "", ⟨some "failure", none, none⟩⟩ : HttpReply) :: []) []
        = ⟨lg, .reportError (format_error ⟨some "failure", none, none⟩), 0 + 1⟩)
    ∧ ((⟨some "failure", none, none⟩ : RespBody).error = none →
        format_error ⟨some "failure", none, none⟩ = .ok "Error: unexpected server response") :=
  c4_poll_error_report [] ⟨200, "", ⟨some "failure", none, none⟩⟩ []
    (by intro x hx; simp at hx) (by decide) (by decide) (by decide)
    (by intro s hs; simp at hs)

/-- C5: the polling loop issues a GET only while every previously observed status
    is running: with any reply that is not a successful running report after a
    running prefix, the number of GETs is the prefix length plus one, regardless
    of any further replies the server could offer. -/
theorem c5_poll_stops_after_terminal (pre : List HttpReply) (r : HttpReply)
    (rest : List HttpReply)
    (hpre : ∀ x ∈ pre, runningReply x)
    (hstop : ¬ (responseOk r.status_code = true ∧ r.body.status.getD "error" = "running")) :
    (poll_loop (pre ++ r :: rest) []).gets = pre.length + 1
    ∧ (poll_loop (pre ++ r :: rest) []).gets = (poll_loop (pre ++ [r]) []).gets := by
  have h1 : (poll_loop (pre ++ r :: rest) []).gets = pre.length + 1 := by
    rw [poll_loop_append pre [] (r :: rest) hpre]
    simp [poll_loop_stop r rest (finalPrev pre []) hstop, Nat.add_comm]
  have h2 : (poll_loop (pre ++ [r]) []).gets = pre.length + 1 := by
    rw [poll_loop_append pre [] [r] hpre]
    simp [poll_loop_stop r [] (finalPrev pre []) hstop, Nat.add_comm]
  exact ⟨h1, h1.trans h2.symm⟩

/-- Witness for C5: a 500 reply ends polling after one GET even though another
    reply would be available. -/
theorem c5_poll_stops_after_terminal_witness :
    (poll_loop ([] ++ (⟨500, "boom", ⟨none, none, none⟩⟩ : HttpReply)
        :: [⟨200, "", ⟨none, none, none⟩⟩]) []).gets = 0 + 1
    ∧ (poll_loop ([] ++ (⟨500, "boom", ⟨none, none, none⟩⟩ : HttpReply)
        :: [⟨200, "", ⟨none, none, none⟩⟩]) []).gets
      = (poll_loop ([] ++ [⟨500, "boom", ⟨none, none, none⟩⟩]) []).gets :=
  c5_poll_stops_after_terminal [] ⟨500, "boom", ⟨none, none, none⟩⟩
    [⟨200, "", ⟨none, none, none⟩⟩] (by intro x hx; simp at hx) (by decide)

/-- C9: a successful running reply containing a step without exactly one colon,
    after a well-formed running prefix, makes the polling loop abort with the
    step-unpacking error on such a step rather than log it or report a fatal
    result; and every line the loop ever logs is the rendering of a step that
    split into a service and an action. -/
theorem c9_bad_step_raises (pre : List HttpReply) (r : HttpReply) (rest : List HttpReply)
    (hpre : ∀ x ∈ pre, runningReply x)
    (hok : responseOk r.status_code = true)
    (_hrun : r.body.status.getD "error" = "running")
    (hbad : ∃ s ∈ r.body.steps.getD [], s.data.count ':' ≠ 1) :
    (∃ lg s, poll_loop (pre ++ r :: rest) [] = ⟨lg, .stepFormatError s, pre.length + 1⟩
      ∧ s.data.count ':' ≠ 1)
    ∧ (∀ replies prev line, line ∈ (poll_loop replies prev).log →
        ∃ s2, format_step s2 = some line) := by
  constructor
  · have hlt : r.status_code < 400 := by simpa [responseOk, decide_eq_true_eq] using hok
    have hauth : ¬ (r.status_code = 401 ∨ r.status_code = 403) := by omega
    have hfg : goodSteps (finalPrev pre []) :=
      finalPrev_good pre [] (by intro s hs; simp at hs) hpre
    have hnotgood : ¬ goodSteps (r.body.steps.getD []) := by
      obtain ⟨s, hs, hc⟩ := hbad
      intro hg
      have hsome := hg s hs
      rw [Option.isSome_iff_exists] at hsome
      obtain ⟨line, hline⟩ := hsome
      have hne : format_step s ≠ none := by simp [hline]
      rw [ne_eq, format_step_none_iff] at hne
      exact hne hc
    have hproc2 : (process_steps (r.body.steps.getD []) (finalPrev pre [])).2 ≠ none := by
      intro h0
      exact hnotgood (process_steps_none_good _ _ hfg h0)
    obtain ⟨s, hs⟩ := Option.ne_none_iff_exists'.mp hproc2
    have hsn : format_step s = none := process_steps_bad _ _ s hs
    have hcount : s.data.count ':' ≠ 1 := (format_step_none_iff s).mp hsn
    have h1 : poll_loop (r :: rest) (finalPrev pre [])
        = ⟨(process_steps (r.body.steps.getD []) (finalPrev pre [])).1,
           .stepFormatError s, 1⟩ := by
      simp only [poll_loop, if_neg hauth, hok, Bool.not_true, Bool.false_eq_true, if_false, hs]
    refine ⟨prefixLog pre []
      ++ (process_steps (r.body.steps.getD []) (finalPrev pre [])).1, s, ?_, hcount⟩
    rw [poll_loop_append pre [] (r :: rest) hpre, h1]
    simp [Nat.add_comm]
  · intro replies prev line h
    exact poll_loop_log replies prev line h

/-- Witness for C9: a running reply reporting a colonless step. -/
theorem c9_bad_step_raises_witness :
    ∃ lg s, poll_loop ([] ++ (⟨200, "", ⟨some "running", some ["badstep"], none⟩⟩ : HttpReply)
        :: []) [] = ⟨lg, .stepFormatError s, 0 + 1⟩
      ∧ s.data.count ':' ≠ 1 :=
  (c9_bad_step_raises [] ⟨200, "", ⟨some "running", some ["badstep"], none⟩⟩ []
    (by intro x hx; simp at hx) (by decide) (by decide)
    ⟨"badstep", by simp, by decide⟩).1

/-! Claim theorems about error formatting. -/

/-- The errorOnNodes example error object of the specification. -/
def c2_error_obj : PyVal :=
  .map [("id", .str "errorOnNodes"),
        ("details", .map [("error", .map [("id", .str "X"), ("description", .str "bad thing")]),
                          ("hostnames", .list [.str "h1", .str "h2"])])]

/-- The full rendering of the errorOnNodes example error object. -/
def c2_expected : String :=
  "Error:\n  id: X\n  nodes:\n    h1\n    h2\n  description: bad thing\n"

/-- C2 counterexample: format_error on the errorOnNodes example renders the node
    list as an indented block, one hostname per line, so its output does not
    contain the comma-joined line claimed by the specification. -/
theorem c2_nodes_not_comma_joined :
    format_error ⟨none, none, some c2_error_obj⟩ = .ok c2_expected
    ∧ strContains c2_expected "nodes: h1, h2" = false := by
  constructor
  · have hd : format_dict (PyVal.map []) "    " = Except.ok "" := by
      simp [format_dict, format_entries]
    have step1 : format_error ⟨none, none, some c2_error_obj⟩ =
        (match format_dict (PyVal.map []) "    " with
         | .error e => Except.error e
         | .ok ds =>
           Except.ok ("Error:\n  id: X\n  nodes:\n    h1\n    h2\n  description: bad thing\n"
             ++ if ds != "" then "  details:\n" ++ ds else ds)) := rfl
    rw [hd] at step1
    exact step1.trans rfl
  · decide

/-- C2 as amended: format_error on the errorOnNodes example produces output
    containing the inner id line, the sorted hostnames each on an indented line
    under a nodes heading, and the wrapped inner description text. -/
theorem c2_format_error_rendering :
    format_error ⟨none, none, some c2_error_obj⟩ = .ok c2_expected
    ∧ strContains c2_expected "id: X" = true
    ∧ strContains c2_expected "nodes:\n    h1\n    h2" = true
    ∧ strContains c2_expected "description: bad thing" = true := by
  refine ⟨?_, by decide, by decide, by decide⟩
  have hd : format_dict (PyVal.map []) "    " = Except.ok "" := by
    simp [format_dict, format_entries]
  have step1 : format_error ⟨none, none, some c2_error_obj⟩ =
      (match format_dict (PyVal.map []) "    " with
       | .error e => Except.error e
       | .ok ds =>
         Except.ok ("Error:\n  id: X\n  nodes:\n    h1\n    h2\n  description: bad thing\n"
           ++ if ds != "" then "  details:\n" ++ ds else ds)) := rfl
  rw [hd] at step1
  exact step1.trans rfl

/-! Claim theorems about submission, batch config, credentials and readiness. -/

/-- C3 counterexample: with the passphrase set successfully, a 401 reply to the
    configuration POST makes configure raise AuthenticationError, whose fixed
    message carries neither the response status nor the body, rather than the
    claimed Fatal error. -/
theorem c3_post_auth_not_fatal :
    configure_submit ⟨200, ""⟩ ⟨401, "body", none⟩ = .authError auth_error_message
    ∧ (SubmitResult.authError auth_error_message).isFatal = false :=
  ⟨rfl, rfl⟩

/-- C3 as amended: a 401 or 403 while setting the passphrase yields
    AlreadyConfigured without regard to the configuration request; otherwise a
    409 POST reply yields AlreadyConfigured, a 401 or 403 POST reply surfaces as
    AuthenticationError, any other non-success status is Fatal carrying the
    response status and body, and a 2xx reply with a Location header yields the
    task handle wrapping it. -/
theorem c3_submit_outcomes (sp : SetPassReply) (post : PostReply) :
    ((sp.status_code = 401 ∨ sp.status_code = 403) →
      ∀ post2, configure_submit sp post2 = .alreadyConfigured)
    ∧ (sp.status_code < 400 →
        ((post.status_code = 409 → configure_submit sp post = .alreadyConfigured)
        ∧ ((post.status_code = 401 ∨ post.status_code = 403) →
            configure_submit sp post = .authError auth_error_message)
        ∧ (400 ≤ post.status_code → post.status_code ≠ 401 → post.status_code ≠ 403 →
            post.status_code ≠ 409 →
            configure_submit sp post = .fatal (fatal_submit_message post.status_code post.text))
        ∧ (200 ≤ post.status_code → post.status_code < 300 →
            ∀ loc, post.location = some loc → configure_submit sp post = .taskHandle loc))) := by
  constructor
  · intro hauth post2
    simp [configure_submit, set_emergency_passphrase, hauth]
  · intro hlt
    have hna : ¬ (sp.status_code = 401 ∨ sp.status_code = 403) := by omega
    have hok : responseOk sp.status_code = true := by
      simp only [responseOk, decide_eq_true_eq]; omega
    refine ⟨?_, ?_, ?_, ?_⟩
    · intro h409
      simp [configure_submit, set_emergency_passphrase, hna, hok, h409]
    · intro hauth
      simp [configure_submit, set_emergency_passphrase, hna, hok, hauth]
    · intro hge h1 h3 h9
      have hnauth : ¬ (post.status_code = 401 ∨ post.status_code = 403) := by omega
      have hnok : responseOk post.status_code = false := by
        simp only [responseOk, decide_eq_false_iff_not]; omega
      simp [configure_submit, set_emergency_passphrase, hna, hok, hnauth, h9, hnok]
    · intro h200 h300 loc hloc
      have hnauth : ¬ (post.status_code = 401 ∨ post.status_code = 403) := by omega
      have hn409 : ¬ post.status_code = 409 := by omega
      have hpok : responseOk post.status_code = true := by
        simp only [responseOk, decide_eq_true_eq]; omega
      simp [configure_submit, set_emergency_passphrase, hna, hok, hnauth, hn409, hpok, hloc]

/-- Witness for C3 covering the four submission outcomes. -/
theorem c3_submit_outcomes_witness :
    configure_submit ⟨401, "denied"⟩ ⟨200, "", some "/tasks/1"⟩ = .alreadyConfigured
    ∧ configure_submit ⟨204, ""⟩ ⟨409, "", none⟩ = .alreadyConfigured
    ∧ configure_submit ⟨204, ""⟩ ⟨500, "oops", none⟩ = .fatal (fatal_submit_message 500 "oops")
    ∧ configure_submit ⟨204, ""⟩ ⟨201, "", some "/tasks/1"⟩ = .taskHandle "/tasks/1" :=
  ⟨(c3_submit_outcomes ⟨401, "denied"⟩ ⟨200, "", some "/tasks/1"⟩).1 (Or.inl rfl)
      ⟨200, "", some "/tasks/1"⟩,
   ((c3_submit_outcomes ⟨204, ""⟩ ⟨409, "", none⟩).2 (by decide)).1 rfl,
   ((c3_submit_outcomes ⟨204, ""⟩ ⟨500, "oops", none⟩).2 (by decide)).2.2.1
      (by decide) (by decide) (by decide) (by decide),
   ((c3_submit_outcomes ⟨204, ""⟩ ⟨201, "", some "/tasks/1"⟩).2 (by decide)).2.2.2
      (by decide) (by decide) "/tasks/1" rfl⟩

/-- One down observation short of the budget: the loop sleeps and recurses. -/
theorem wait_loop_down_step (x : HealthReply) (l : List HealthReply) (n : Nat)
    (hx : nagios_up x = .down) (hn : ¬ n + 1 = 120) :
    wait_loop (x :: l) n = ⟨(wait_loop l (n + 1)).outcome,
      (wait_loop l (n + 1)).checks + 1, (wait_loop l (n + 1)).sleeps + 1⟩ := by
  simp only [wait_loop, hx, if_neg hn]

/-- The readiness loop times out on a block of down observations that exhausts the
    retry budget, whatever would come afterwards. -/
theorem wait_loop_timeout (replies : List HealthReply) :
    ∀ (retries : Nat) (rest : List HealthReply),
    (∀ x ∈ replies, nagios_up x = .down) → replies ≠ [] →
    retries + replies.length = 120 →
    wait_loop (replies ++ rest) retries
      = ⟨.timeout timeout_message, replies.length, replies.length⟩ := by
  induction replies with
  | nil => intro retries rest _ hne _; exact absurd rfl hne
  | cons h t ih =>
    intro retries rest hall _ hsum
    have hd : nagios_up h = .down := hall h (by simp)
    cases t with
    | nil =>
      have h120 : retries + 1 = 120 := by simpa using hsum
      simp [wait_loop, hd, h120]
    | cons h2 t2 =>
      have hne : ¬ retries + 1 = 120 := by
        simp only [List.length_cons] at hsum; omega
      have htail := ih (retries + 1) rest (fun x hx => hall x (by simp [hx]))
        (by simp) (by simp only [List.length_cons] at hsum ⊢; omega)
      simp only [List.cons_append] at htail ⊢
      rw [wait_loop_down_step h (h2 :: (t2 ++ rest)) retries hd hne, htail]
      rfl

/-- The readiness loop reports health as soon as an up observation arrives within
    the retry budget, after sleeping once per failed observation. -/
theorem wait_loop_healthy (replies : List HealthReply) :
    ∀ (retries : Nat) (r : HealthReply) (rest : List HealthReply),
    (∀ x ∈ replies, nagios_up x = .down) → nagios_up r = .up →
    retries + replies.length < 120 →
    wait_loop (replies ++ r :: rest) retries
      = ⟨.healthy, replies.length + 1, replies.length⟩ := by
  induction replies with
  | nil => intro retries r rest _ hup _; simp [wait_loop, hup]
  | cons h t ih =>
    intro retries r rest hall hup hlt
    have hd : nagios_up h = .down := hall h (by simp)
    have hne : ¬ retries + 1 = 120 := by
      simp only [List.length_cons] at hlt; omega
    have htail := ih (retries + 1) r rest (fun x hx => hall x (by simp [hx])) hup
      (by simp only [List.length_cons] at hlt; omega)
    simp only [List.cons_append] at htail ⊢
    rw [wait_loop_down_step h (t ++ r :: rest) retries hd hne, htail]
    rfl

/-- C6: wait_for_workers times out after exactly 120 consecutive down health
    observations, sleeping one unit after each, and returns healthy as soon as
    any observation within the budget reports an ok status. -/
theorem c6_wait_timeout_budget :
    (∀ (fails rest : List HealthReply), fails.length = 120 →
      (∀ x ∈ fails, nagios_up x = .down) →
      wait_for_workers (fails ++ rest) = ⟨.timeout timeout_message, 120, 120⟩)
    ∧ (∀ (fails : List HealthReply) (r : HealthReply) (rest : List HealthReply),
        fails.length < 120 → (∀ x ∈ fails, nagios_up x = .down) → nagios_up r = .up →
        wait_for_workers (fails ++ r :: rest) = ⟨.healthy, fails.length + 1, fails.length⟩) := by
  constructor
  · intro fails rest hlen hall
    have hne : fails ≠ [] := by
      intro h; rw [h] at hlen; simp at hlen
    have ht := wait_loop_timeout fails 0 rest hall hne (by omega)
    rw [hlen] at ht
    exact ht
  · intro fails r rest hlen hall hup
    exact wait_loop_healthy fails 0 r rest hall hup (by omega)

/-- Witness for C6: 120 connection failures time out; an immediate ok health
    document succeeds. -/
theorem c6_wait_timeout_budget_witness :
    wait_for_workers (List.replicate 120 HealthReply.requestException ++ [])
      = ⟨.timeout timeout_message, 120, 120⟩
    ∧ wait_for_workers ([] ++ (HealthReply.httpReply 200 (some [("status", "ok")])) :: [])
      = ⟨.healthy, 0 + 1, 0⟩ :=
  ⟨c6_wait_timeout_budget.1 (List.replicate 120 .requestException) [] (by simp)
      (fun x hx => by rw [List.eq_of_mem_replicate hx]; rfl),
   c6_wait_timeout_budget.2 [] (.httpReply 200 (some [("status", "ok")])) []
      (by simp) (fun x hx => by simp at hx) rfl⟩

/-- Looking up a key right after setting it finds the new value. -/
theorem lookup_dict_set (k : String) (v : PyVal) (es : List (String × PyVal)) :
    (dict_set k v es).lookup k = some v := by
  induction es with
  | nil => simp [dict_set, List.lookup]
  | cons e rest ih =>
    obtain ⟨k2, v2⟩ := e
    by_cases h : k2 = k
    · simp [dict_set, h, List.lookup]
    · have hne : (k == k2) = false := beq_eq_false_iff_ne.mpr (Ne.symm h)
      simp [dict_set, h, List.lookup, hne, ih]

/-- C7 counterexample: the empty mapping is a falsy configuration blob, so
    get_batch_config collapses it to the empty dict, which contains no
    onepanel.interactiveDeployment entry. -/
theorem c7_empty_config_lacks_mark :
    get_batch_config (.map []) = .ok (.map [])
    ∧ interactive_of ([] : List (String × PyVal)) = none :=
  ⟨rfl, rfl⟩

/-- C7 as amended: for every non-empty configuration mapping whose onepanel entry,
    when present, is itself a mapping, the built request contains the field
    onepanel.interactiveDeployment, equal to false whenever the input did not
    already contain it. -/
theorem c7_interactive_default (entries : List (String × PyVal))
    (hne : entries ≠ [])
    (hop : entries.lookup "onepanel" = none
           ∨ ∃ op, entries.lookup "onepanel" = some (.map op)) :
    ∃ out, get_batch_config (.map entries) = .ok (.map out)
      ∧ ∃ v, interactive_of out = some v
      ∧ (interactive_of entries = none → v = .bool false) := by
  have htruthy : pyTruthy (.map entries) = true := by
    cases entries with
    | nil => exact absurd rfl hne
    | cons a t => simp [pyTruthy]
  rcases hop with hop | ⟨op, hop⟩
  · refine ⟨dict_set "onepanel" (.map (dict_set "interactiveDeployment" (.bool false) []))
      entries, ?_, .bool false, ?_, fun _ => rfl⟩
    · simp [get_batch_config, htruthy, hop, dict_set, List.lookup]
    · simp [interactive_of, lookup_dict_set, dict_set, List.lookup]
  · by_cases hid : (op.lookup "interactiveDeployment").isSome
    · obtain ⟨v, hv⟩ := Option.isSome_iff_exists.mp hid
      refine ⟨entries, ?_, v, ?_, ?_⟩
      · simp [get_batch_config, htruthy, hop, hid]
      · simp [interactive_of, hop, hv]
      · intro habs
        exfalso
        simp [interactive_of, hop, hv] at habs
    · refine ⟨dict_set "onepanel" (.map (dict_set "interactiveDeployment" (.bool false) op))
        entries, ?_, .bool false, ?_, fun _ => rfl⟩
      · simp [get_batch_config, htruthy, hop, hid]
      · simp [interactive_of, lookup_dict_set]

/-- Witness for C7 at a config without an onepanel section. -/
theorem c7_interactive_default_witness :
    ∃ out, get_batch_config (.map [("onezone", PyVal.map [])]) = .ok (.map out)
      ∧ ∃ v, interactive_of out = some v
      ∧ (interactive_of [("onezone", PyVal.map [])] = none → v = .bool false) :=
  c7_interactive_default [("onezone", PyVal.map [])] (by simp) (Or.inl rfl)

/-- C8: the credential lookup fails exactly when the passphrase variable is
    absent from the environment; an empty-string passphrase is returned as is
    and used as the Basic-auth password alongside the fixed username. -/
theorem c8_missing_credential_iff (env : Option String)
    (respond : String × String → HttpReply) :
    ((∃ m, get_emergency_passphrase env = .error m) ↔ env = none)
    ∧ get_emergency_passphrase (some "") = .ok ""
    ∧ (env = some "" →
        ¬ ((respond ("onepanel", "")).status_code = 401
           ∨ (respond ("onepanel", "")).status_code = 403) →
        do_auth_request env respond = .ok (("onepanel", ""), respond ("onepanel", ""))) := by
  refine ⟨⟨?_, ?_⟩, rfl, ?_⟩
  · rintro ⟨m, hm⟩
    cases env with
    | none => rfl
    | some p => simp [get_emergency_passphrase] at hm
  · intro h
    subst h
    exact ⟨_, rfl⟩
  · intro henv hna
    subst henv
    show (if (respond ("onepanel", "")).status_code = 401
          ∨ (respond ("onepanel", "")).status_code = 403
        then (Except.error auth_error_message : Except String ((String × String) × HttpReply))
        else .ok (("onepanel", ""), respond ("onepanel", "")))
      = .ok (("onepanel", ""), respond ("onepanel", ""))
    exact if_neg hna

/-- Responder used by the C8 witness. -/
def c8_respond : String × String → HttpReply := fun _ => ⟨200, "", ⟨none, none, none⟩⟩

/-- Witness for C8: a missing variable errors, an empty passphrase authenticates. -/
theorem c8_missing_credential_iff_witness :
    (∃ m, get_emergency_passphrase (none : Option String) = .error m)
    ∧ do_auth_request (some "") c8_respond
      = .ok (("onepanel", ""), c8_respond ("onepanel", "")) :=
  ⟨(c8_missing_credential_iff none c8_respond).1.mpr rfl,
   (c8_missing_credential_iff (some "") c8_respond).2.2 rfl (by decide)⟩

/-- C10 counterexample: a 200 reply whose body parses to a health document with a
    status attribute different from ok is reported down and is consumed by the
    wait loop as a failed attempt, with its sleep, although it is neither a
    transport failure nor a non-success HTTP status. -/
theorem c10_nonok_status_still_counts :
    nagios_up (.httpReply 200 (some [("status", "critical")])) = .down
    ∧ responseOk 200 = true
    ∧ wait_loop [.httpReply 200 (some [("status", "critical")])] 0 = ⟨.starved, 1, 1⟩ :=
  ⟨rfl, rfl, rfl⟩

/-- C10 as amended: an observation counts as failed exactly when the request
    raised, the HTTP status was non-success, or a successful reply parsed to a
    health document whose status attribute differs from ok; a successful reply
    with a malformed body or without a status attribute instead raises, and a
    raising observation propagates out of the wait loop without being counted. -/
theorem c10_failed_observation_characterized :
    (∀ h : HealthReply, nagios_up h = .down ↔
        (h = .requestException
         ∨ (∃ c p, h = .httpReply c p ∧ 400 ≤ c)
         ∨ (∃ c attrs v, h = .httpReply c (some attrs) ∧ c < 400
             ∧ attrs.lookup "status" = some v ∧ v ≠ "ok")))
    ∧ (∀ c : Nat, c < 400 →
        (∃ m, nagios_up (.httpReply c none) = .raised m)
        ∧ (∀ attrs, attrs.lookup "status" = none →
            ∃ m, nagios_up (.httpReply c (some attrs)) = .raised m))
    ∧ (∀ (h : HealthReply) (m : String) (rest : List HealthReply) (retries : Nat),
        nagios_up h = .raised m → wait_loop (h :: rest) retries = ⟨.raised m, 1, 0⟩) := by
  refine ⟨?_, ?_, ?_⟩
  · intro h
    cases h with
    | requestException => exact iff_of_true rfl (Or.inl rfl)
    | httpReply c p =>
      by_cases hge : 400 ≤ c
      · have hdown : nagios_up (.httpReply c p) = .down := by
          by_cases hc : c = 401 ∨ c = 403
          · simp [nagios_up, hc]
          · have hnok : responseOk c = false := by
              simp only [responseOk, decide_eq_false_iff_not]; omega
            simp [nagios_up, hc, hnok]
        rw [hdown]
        exact iff_of_true rfl (Or.inr (Or.inl ⟨c, p, rfl, hge⟩))
      · have hlt : c < 400 := by omega
        have hc : ¬ (c = 401 ∨ c = 403) := by omega
        have hok : responseOk c = true := by
          simp only [responseOk, decide_eq_true_eq]; omega
        cases p with
        | none =>
          have hn : nagios_up (.httpReply c none)
              = .raised "ParseError: malformed health document" := by
            simp [nagios_up, hc, hok]
          rw [hn]
          apply iff_of_false (by simp)
          rintro (h1 | ⟨c2, p2, heq, hge2⟩ | ⟨c2, attrs, v, heq, _, _, _⟩)
          · exact absurd h1 (by simp)
          · injection heq with hc2 hp2
            omega
          · injection heq with hc2 hp2
            exact absurd hp2 (by simp)
        | some attrs =>
          cases hl : attrs.lookup "status" with
          | none =>
            have hn : nagios_up (.httpReply c (some attrs)) = .raised "KeyError: status" := by
              simp [nagios_up, hc, hok, hl]
            rw [hn]
            apply iff_of_false (by simp)
            rintro (h1 | ⟨c2, p2, heq, hge2⟩ | ⟨c2, attrs2, v, heq, _, hl2, hv⟩)
            · exact absurd h1 (by simp)
            · injection heq with hc2 hp2
              omega
            · injection heq with hc2 hp2
              injection hp2 with hp3
              subst hc2
              rw [← hp3] at hl2
              rw [hl] at hl2
              exact absurd hl2 (by simp)
          | some v =>
            by_cases hv : v = "ok"
            · subst hv
              have hn : nagios_up (.httpReply c (some attrs)) = .up := by
                simp [nagios_up, hc, hok, hl]
              rw [hn]
              apply iff_of_false (by simp)
              rintro (h1 | ⟨c2, p2, heq, hge2⟩ | ⟨c2, attrs2, v2, heq, _, hl2, hv2⟩)
              · exact absurd h1 (by simp)
              · injection heq with hc2 hp2
                omega
              · injection heq with hc2 hp2
                injection hp2 with hp3
                rw [← hp3] at hl2
                rw [hl] at hl2
                injection hl2 with hv3
                exact hv2 hv3.symm
            · have hn : nagios_up (.httpReply c (some attrs)) = .down := by
                simp [nagios_up, hc, hok, hl, hv]
              rw [hn]
              exact iff_of_true rfl (Or.inr (Or.inr ⟨c, attrs, v, rfl, hlt, hl, hv⟩))
  · intro c hlt
    have hc : ¬ (c = 401 ∨ c = 403) := by omega
    have hok : responseOk c = true := by
      simp only [responseOk, decide_eq_true_eq]; omega
    exact ⟨⟨"ParseError: malformed health document", by simp [nagios_up, hc, hok]⟩,
      fun attrs hl => ⟨"KeyError: status", by simp [nagios_up, hc, hok, hl]⟩⟩
  · intro h m rest retries hr
    simp [wait_loop, hr]

/-- Witness for C10: a connection failure is down, a malformed 200 body raises,
    and the raise propagates out of the wait loop. -/
theorem c10_failed_observation_characterized_witness :
    nagios_up HealthReply.requestException = .down
    ∧ (∃ m, nagios_up (.httpReply 200 none) = .raised m)
    ∧ wait_loop [HealthReply.httpReply 200 none] 5
      = ⟨.raised "ParseError: malformed health document", 1, 0⟩ :=
  ⟨(c10_failed_observation_characterized.1 HealthReply.requestException).mpr (Or.inl rfl),
   (c10_failed_observation_characterized.2.1 200 (by omega)).1,
   c10_failed_observation_characterized.2.2 (.httpReply 200 none)
     "ParseError: malformed health document" [] 5 rfl⟩
